import Mathlib

/-!
Verification of the FORMUL-RIO contact-form controller.

The JavaScript sources (`src/utils.js`, `src/classes.js`, `app.js`) are
shallowly embedded below:

* JS objects returned by `response.json()` are modelled by the inductive
  `Json`; JS truthiness by `truthy`.
* A raw entry mapping (a plain JS object of field name to string value,
  as produced by `FormHandler.getFormData`) is a `List (String × String)`
  in the object's iteration order.
* The field pipeline `transformAndValidateFields` / `validateSubmission`
  of `utils.js` is translated function by function.
* `submitFormToAPI` is modelled over an explicit `FetchOutcome` describing
  how the network call and body parse resolved; its emitted network call
  is recorded as a `fetch` event.
* The orchestrator `handleFormSubmit` is modelled as a pure function
  returning its boolean result together with the ordered trace of
  collaborator calls (`Event`s) it performs.
* `ResponseHandler` of `classes.js` is modelled by explicit state passing,
  with the wall-clock time of a display call passed as a `now : Nat`
  argument.
-/

namespace FormulRio

/-- A JSON value, as produced by `response.json()` in `utils.js`. -/
inductive Json where
  | null : Json
  | bool (b : Bool) : Json
  | num (n : Int) : Json
  | str (s : String) : Json
  | arr (elems : List Json) : Json
  | obj (fields : List (String × Json)) : Json

/-- JavaScript truthiness of a `Json` value (objects and arrays are always
truthy; `null`, `false`, `0` and `""` are falsy). -/
def truthy : Json → Bool
  | .null => false
  | .bool b => b
  | .num n => n != 0
  | .str s => s != ""
  | .arr _ => true
  | .obj _ => true

/-- JS optional-chaining property access `v?.p`: a property lookup on an
object, `none` (undefined) on every other value. -/
def getProp (v : Json) (p : String) : Option Json :=
  match v with
  | .obj fields => fields.lookup p
  | _ => none

/-- JS `a || b` where `a` is an optional (possibly undefined) value:
`a` when present and truthy, otherwise `b`. -/
def jsOr (a : Option Json) (b : Json) : Json :=
  match a with
  | some v => if truthy v then v else b
  | none => b

/-- JS `String.prototype.trim`: removes leading and trailing whitespace.
(Executable counterpart of the `.trim()` calls in `utils.js`.) -/
def jsTrim (s : String) : String :=
  ⟨((s.data.dropWhile Char.isWhitespace).reverse.dropWhile
      Char.isWhitespace).reverse⟩

/-- Intermediate record `{ name, value, required }` built from one
`Object.entries` pair in `transformAndValidateFields` (`utils.js`). -/
structure RawField where
  name : String
  value : String
  required : Bool
deriving DecidableEq, Repr

/-- Record after `transformField` added `isEmpty` and trimmed `value`. -/
structure TrimmedField where
  name : String
  value : String
  required : Bool
  isEmpty : Bool
deriving DecidableEq, Repr

/-- Record after `validateField` added `isValid`: the final Field shape
`{ name, value, required, isEmpty, isValid }`. -/
structure Field where
  name : String
  value : String
  required : Bool
  isEmpty : Bool
  isValid : Bool
deriving DecidableEq, Repr

/-- `transformField` (`utils.js` lines 29-33): trims the value and sets
`isEmpty` to whether the trimmed value has length 0. -/
def transformField (field : RawField) : TrimmedField :=
  { name := field.name
    value := jsTrim field.value
    required := field.required
    isEmpty := (jsTrim field.value).length == 0 }

/-- `validateField` (`utils.js` lines 40-43): `isValid = !isEmpty`. -/
def validateField (field : TrimmedField) : Field :=
  { name := field.name
    value := field.value
    required := field.required
    isEmpty := field.isEmpty
    isValid := !field.isEmpty }

/-- `transformAndValidateFields` (`utils.js` lines 67-75): one Field per
`Object.entries` pair, in iteration order; `required` is membership of the
name in `requiredFields`. -/
def transformAndValidateFields (formData : List (String × String))
    (requiredFields : List String) : List Field :=
  ((formData.map (fun p =>
      RawField.mk p.1 p.2 (requiredFields.contains p.1))).map
    transformField).map validateField

/-- The object returned by `validateSubmission`. -/
structure ValidationOutcome where
  shouldProceed : Bool
  errors : List String
  validationResults : List Field
deriving DecidableEq, Repr

/-- `validateSubmission` (`utils.js` lines 132-141): errors are the names of
the invalid fields, in order; `shouldProceed` iff there are none. -/
def validateSubmission (formData : List (String × String))
    (requiredFields : List String) : ValidationOutcome :=
  let validationResults := transformAndValidateFields formData requiredFields
  let errors := validationResults.filter (fun result => !result.isValid)
  { shouldProceed := errors.length == 0
    errors := errors.map (fun err => err.name)
    validationResults := validationResults }

/-- Pointwise form of the field pipeline: what one entry becomes. -/
def mkValidatedField (requiredFields : List String)
    (p : String × String) : Field :=
  { name := p.1
    value := jsTrim p.2
    required := requiredFields.contains p.1
    isEmpty := (jsTrim p.2).length == 0
    isValid := !((jsTrim p.2).length == 0) }

/-- The property claim C1 asserts of `shouldProceed`, written from the
spec's words: every required name maps in the raw mapping to a value that
is non-blank after trimming. -/
def specRequiredNonBlank (M : List (String × String))
    (R : List String) : Prop :=
  ∀ n ∈ R, ∃ v, (n, v) ∈ M ∧ jsTrim v ≠ ""

/-- The part of a `Field` other than its `required` flag. -/
def fieldCore (f : Field) : String × String × Bool × Bool :=
  (f.name, f.value, f.isEmpty, f.isValid)

/-- The name-value pairs read back off a list of Fields (the input shape
for re-transforming, as in claim C8). -/
def fieldsToPairs (fields : List Field) : List (String × String) :=
  fields.map (fun f => (f.name, f.value))

/-- The normalized response object built by `createResponseObject`
(`utils.js` lines 99-105). `status` is `none` when the JS value is
`null`; `message` is a `Json` value because `data.message` need not be a
string. -/
structure SubmissionResult where
  status : Option Int
  success : Bool
  message : Json
  data : Json
  error : Option String

/-- `createResponseObject` (`utils.js` lines 99-105). JS `data?.message ||
(error ? "Something went wrong!" : "Success")` is `jsOr` of the property
lookup and the error-dependent fallback. -/
def createResponseObject (status : Option Int) (data : Json)
    (error : Option String) : SubmissionResult :=
  { status := status
    success := status == some 200
    message := jsOr (getProp data "message")
      (if error.isSome then Json.str "Something went wrong!"
       else Json.str "Success")
    data := data
    error := error }

/-- How the network attempt inside `submitFormToAPI` resolves: the fetch
completes and the body parses as JSON value `body`; the fetch itself
throws; or `response.json()` throws. -/
inductive FetchOutcome where
  | completed (status : Int) (body : Json)
  | fetchFailed (error : String)
  | parseFailed (error : String)

/-- A collaborator call performed by the workflow, in order: the trace
alphabet of `handleFormSubmit` and `submitFormToAPI`. -/
inductive Event where
  | focusInvalidField
  | addValidationClass
  | showLoading
  | showSuccess (message : Json)
  | showError (message : Json)
  | hideAfter (delay : Nat)
  | fetch (data : List (String × String)) (url : String)
  | reset

/-- `submitFormToAPI` (`utils.js` lines 113-124): performs the one fetch
(recorded as an event), then normalizes however the attempt resolved; a
thrown error is caught and becomes `createResponseObject(null, null,
error)`. The function is total: no failure re-throws. -/
def submitFormToAPI (data : List (String × String)) (url : String)
    (outcome : FetchOutcome) : SubmissionResult × List Event :=
  match outcome with
  | .completed status body =>
      (createResponseObject (some status) body none, [.fetch data url])
  | .fetchFailed error =>
      (createResponseObject none Json.null (some error), [.fetch data url])
  | .parseFailed error =>
      (createResponseObject none Json.null (some error), [.fetch data url])

/-- The options destructured at the top of `handleFormSubmit` (`utils.js`
line 170): `requiredFields` (JS default `[]`) and `resetDelay` (JS
default 5000). -/
structure Options where
  requiredFields : List String
  resetDelay : Nat

/-- The form adapter as `handleFormSubmit` observes it: what `isValid()`
and `getFormData()` return on this submission attempt. -/
structure FormHandler where
  isValid : Bool
  formData : List (String × String)

/-- `handleFormSubmit` (`utils.js` lines 164-209), as a pure function of
the adapter observations and the fetch resolution, returning the boolean
result together with the ordered trace of collaborator calls. -/
def handleFormSubmit (formHandler : FormHandler) (outcome : FetchOutcome)
    (apiUrl : String) (options : Options) : Bool × List Event :=
  if !formHandler.isValid then
    (false, [.focusInvalidField, .addValidationClass])
  else
    let formData := formHandler.formData
    let validation := validateSubmission formData options.requiredFields
    if !validation.shouldProceed then
      (false,
        [.showLoading,
          .showError (Json.str ("Missing required fields: "
            ++ String.intercalate ", " validation.errors)),
          .hideAfter options.resetDelay])
    else
      let resultAndTrace := submitFormToAPI formData apiUrl outcome
      let result := resultAndTrace.1
      (result.success,
        [Event.showLoading] ++ resultAndTrace.2
          ++ [if result.success then Event.showSuccess result.message
              else Event.showError result.message,
            Event.reset, Event.hideAfter options.resetDelay])

/-- A DOM node, identified abstractly; only its position in the invalid
list matters to `focusInvalidField`. -/
structure DomNode where
  id : String

/-- JS truthiness of a DOM node reference: element objects are always
truthy, so the `find((field) => field)` in `FormHandler.focusInvalidField`
tests each candidate with a constantly-true predicate. -/
def nodeTruthy (_ : DomNode) : Bool := true

/-- `FormHandler.focusInvalidField` (`classes.js` lines 88-93): the node
receiving focus is the first truthy entry of the invalid-field list. -/
def focusInvalidFieldTarget (invalidFields : List DomNode) : Option DomNode :=
  invalidFields.find? nodeTruthy

/-- One entry of `messageHistory`: content, status kind, and creation
time, as built by `createMessage` (`classes.js` lines 176-180). -/
structure Message where
  content : String
  status : String
  timestamp : Nat
deriving DecidableEq

/-- `createMessage` (`classes.js` lines 176-180); the wall-clock reading
`new Date().getTime()` is an explicit argument. -/
def createMessage (content : String) (status : String) (now : Nat) : Message :=
  { content := content, status := status, timestamp := now }

/-- The mutable DOM element a `ResponseHandler` writes to. -/
structure ResultElement where
  innerHTML : String
  display : String
  classList : List String
deriving DecidableEq

/-- One `getClassConfig` entry (`classes.js` lines 152-168). -/
structure ClassConfig where
  toRemove : List String
  toAdd : List String

/-- `getClassConfig` (`classes.js` lines 152-168): the colour classes for
a status, falling back to the error configuration for unknown statuses. -/
def getClassConfig (status : String) : ClassConfig :=
  if status == "loading" then
    { toRemove := ["text-green-500", "text-red-500"]
      toAdd := ["text-gray-500"] }
  else if status == "success" then
    { toRemove := ["text-gray-500", "text-red-500"]
      toAdd := ["text-green-500"] }
  else
    { toRemove := ["text-gray-500", "text-green-500"]
      toAdd := ["text-red-500"] }

/-- `DOMTokenList.remove`: drops the token wherever it occurs. -/
def classListRemove (classList : List String) (cls : String) : List String :=
  classList.filter (fun c => c != cls)

/-- `DOMTokenList.add`: appends the token unless already present. -/
def classListAdd (classList : List String) (cls : String) : List String :=
  if classList.contains cls then classList else classList ++ [cls]

/-- `updateElementClasses` (`classes.js` lines 140-145): remove every
`toRemove` class, then add every `toAdd` class. -/
def updateElementClasses (classList : List String)
    (config : ClassConfig) : List String :=
  config.toAdd.foldl classListAdd
    (config.toRemove.foldl classListRemove classList)

/-- The state of a `ResponseHandler` (`classes.js` lines 185-189): the
looked-up result element (`none` when `getElementById` found nothing) and
the message history. -/
structure ResponseHandler where
  resultElement : Option ResultElement
  messageHistory : List Message

/-- The history-append step of `displayMessage`: `this.messageHistory =
[...this.messageHistory, messageObj]`. It touches nothing else. -/
def appendToHistory (s : ResponseHandler) (m : Message) : ResponseHandler :=
  { s with messageHistory := s.messageHistory ++ [m] }

/-- The visible-state steps of `displayMessage` that follow the append:
set `innerHTML`, set `display` to "block", and swap the status colour
classes. They do not touch the history. -/
def updateVisibleState (s : ResponseHandler) (message : String)
    (status : String) : ResponseHandler :=
  match s.resultElement with
  | none => s
  | some el =>
      { s with
        resultElement := some (ResultElement.mk message "block"
          (updateElementClasses el.classList (getClassConfig status))) }

/-- `ResponseHandler.displayMessage` (`classes.js` lines 196-207): bails
out when there is no result element; otherwise appends one message to the
history and then updates the visible state. -/
def displayMessage (s : ResponseHandler) (message : String)
    (status : String) (now : Nat) : ResponseHandler :=
  match s.resultElement with
  | none => s
  | some _ =>
      updateVisibleState (appendToHistory s (createMessage message status now))
        message status

/-- `showLoading` (`classes.js` lines 212-214). -/
def showLoading (s : ResponseHandler) (now : Nat) : ResponseHandler :=
  displayMessage s "Please wait..." "loading" now

/-- `showSuccess` (`classes.js` lines 220-222). -/
def showSuccess (s : ResponseHandler) (message : String) (now : Nat) :
    ResponseHandler :=
  displayMessage s message "success" now

/-- `showError` (`classes.js` lines 228-230). -/
def showError (s : ResponseHandler) (message : String) (now : Nat) :
    ResponseHandler :=
  displayMessage s message "error" now

/-- The deferred callback scheduled by `hideAfter` (`classes.js` lines
257-263), as it runs when the timer fires: hides the element if present,
touching nothing else. -/
def hideAfterFire (s : ResponseHandler) : ResponseHandler :=
  match s.resultElement with
  | none => s
  | some el => { s with resultElement := some { el with display := "none" } }

/-- The three map stages of the field pipeline fuse into one map. -/
theorem transformAndValidateFields_eq_map (formData : List (String × String))
    (requiredFields : List String) :
    transformAndValidateFields formData requiredFields
      = formData.map (mkValidatedField requiredFields) := by
  unfold transformAndValidateFields mkValidatedField transformField validateField
  simp [List.map_map]

/-- A string has length 0 exactly when it is the empty string. -/
theorem string_length_eq_zero_iff (s : String) : s.length = 0 ↔ s = "" := by
  cases s with
  | mk data => simp [String.length, String.ext_iff]

/-- The invalid fields of a validation run are exactly the entries whose
trimmed value is empty, independent of the required-field list. -/
theorem validateSubmission_invalid_filter (M : List (String × String))
    (R : List String) :
    (transformAndValidateFields M R).filter (fun r => !r.isValid)
      = (M.filter (fun p => (jsTrim p.2).length == 0)).map
          (mkValidatedField R) := by
  rw [transformAndValidateFields_eq_map, List.filter_map]
  congr 1
  apply List.filter_congr
  intro p _
  simp [mkValidatedField, Function.comp]

/-- `errors` lists, in order, the names of the entries whose trimmed
value is empty. -/
theorem validateSubmission_errors_char (M : List (String × String))
    (R : List String) :
    (validateSubmission M R).errors
      = (M.filter (fun p => (jsTrim p.2).length == 0)).map Prod.fst := by
  show ((transformAndValidateFields M R).filter
      (fun r => !r.isValid)).map (fun err => err.name) = _
  rw [validateSubmission_invalid_filter, List.map_map]
  rfl

/-- `shouldProceed` tests whether no entry has an empty trimmed value. -/
theorem validateSubmission_shouldProceed_char (M : List (String × String))
    (R : List String) :
    (validateSubmission M R).shouldProceed
      = ((M.filter (fun p => (jsTrim p.2).length == 0)).length == 0) := by
  show (((transformAndValidateFields M R).filter
      (fun r => !r.isValid)).length == 0) = _
  rw [validateSubmission_invalid_filter, List.length_map]

/-- C1 (counterexample): with the mapping `{a: " "}` and no required
fields, the spec's condition holds vacuously, yet `shouldProceed` is
false, because `validateSubmission` rejects every blank field whether or
not it is required. -/
theorem C1_counterexample :
    ¬ (((validateSubmission [("a", " ")] []).shouldProceed = true)
        ↔ specRequiredNonBlank [("a", " ")] []) := by
  intro h
  have hspec : specRequiredNonBlank [("a", " ")] [] := by
    intro n hn
    exact absurd hn (List.not_mem_nil n)
  exact absurd (h.mpr hspec) (by decide)

/-- C1 (amended): `validateSubmission(M, R).shouldProceed` is true iff
every entry of `M` (required or not) has a value that is non-blank after
trimming; the required-field set `R` plays no role. -/
theorem C1_shouldProceed_iff_all_entries_nonblank
    (M : List (String × String)) (R : List String) :
    (validateSubmission M R).shouldProceed = true
      ↔ ∀ p ∈ M, jsTrim p.2 ≠ "" := by
  rw [validateSubmission_shouldProceed_char]
  simp [List.length_eq_zero, List.filter_eq_nil_iff, string_length_eq_zero_iff]

/-- Witness for the amended C1 at a concrete input. -/
theorem C1_amended_witness :
    (validateSubmission [("email", " hi ")] ["email"]).shouldProceed = true :=
  (C1_shouldProceed_iff_all_entries_nonblank [("email", " hi ")]
    ["email"]).mpr (by decide)

/-- C9: the required-field list affects neither `shouldProceed` nor
`errors`, and changes only the `required` flag of the returned fields; a
blank field blocks submission whether or not it is required, and a name
absent from the mapping never appears in `errors`. -/
theorem C9_requiredFields_only_affect_required_flag
    (M : List (String × String)) (R R' : List String) :
    (validateSubmission M R).shouldProceed
        = (validateSubmission M R').shouldProceed
    ∧ (validateSubmission M R).errors = (validateSubmission M R').errors
    ∧ (validateSubmission M R).validationResults.map fieldCore
        = (validateSubmission M R').validationResults.map fieldCore
    ∧ (∀ n v, (n, v) ∈ M → jsTrim v = ""
        → (validateSubmission M R).shouldProceed = false)
    ∧ (∀ n, n ∉ M.map Prod.fst → n ∉ (validateSubmission M R).errors) := by
  refine ⟨?_, ?_, ?_, ?_, ?_⟩
  · rw [validateSubmission_shouldProceed_char,
      validateSubmission_shouldProceed_char]
  · rw [validateSubmission_errors_char, validateSubmission_errors_char]
  · show (transformAndValidateFields M R).map fieldCore
        = (transformAndValidateFields M R').map fieldCore
    rw [transformAndValidateFields_eq_map, transformAndValidateFields_eq_map,
      List.map_map, List.map_map]
    rfl
  · intro n v hmem hblank
    rw [validateSubmission_shouldProceed_char]
    have hq : ((jsTrim v).length == 0) = true := by rw [hblank]; rfl
    have hne : M.filter (fun p => (jsTrim p.2).length == 0) ≠ [] :=
      List.ne_nil_of_mem (List.mem_filter.mpr ⟨hmem, hq⟩)
    have hlen : (M.filter (fun p => (jsTrim p.2).length == 0)).length ≠ 0 := by
      simpa [List.length_eq_zero] using hne
    simpa using hlen
  · intro n hn hmem
    rw [validateSubmission_errors_char] at hmem
    obtain ⟨p, hp, hpn⟩ := List.mem_map.mp hmem
    exact hn (List.mem_map.mpr ⟨p, (List.mem_filter.mp hp).1, hpn⟩)

/-- Witness for C9: a blank non-required field blocks, and an absent name
never appears in `errors`. -/
theorem C9_witness :
    (validateSubmission [("a", " "), ("b", "x")] ["b"]).shouldProceed = false
    ∧ "zz" ∉ (validateSubmission [("a", " "), ("b", "x")] ["b"]).errors := by
  constructor
  · exact (C9_requiredFields_only_affect_required_flag
      [("a", " "), ("b", "x")] ["b"] []).2.2.2.1 "a" " " (by decide) (by decide)
  · exact (C9_requiredFields_only_affect_required_flag
      [("a", " "), ("b", "x")] ["b"] []).2.2.2.2 "zz" (by decide)

/-- C8: `transformAndValidateFields` yields one Field per entry, keeping
the mapping's iteration order of names, and is idempotent on mappings
whose values are already trimmed and non-empty: re-transforming the
name-value pairs of its output yields identical Fields. -/
theorem C8_toFields_order_and_idempotent (M : List (String × String))
    (R : List String) :
    (transformAndValidateFields M R).map Field.name = M.map Prod.fst
    ∧ ((∀ p ∈ M, jsTrim p.2 = p.2 ∧ p.2 ≠ "")
        → transformAndValidateFields
            (fieldsToPairs (transformAndValidateFields M R)) R
          = transformAndValidateFields M R) := by
  constructor
  · rw [transformAndValidateFields_eq_map, List.map_map]
    rfl
  · intro h
    rw [transformAndValidateFields_eq_map M R, fieldsToPairs, List.map_map,
      transformAndValidateFields_eq_map, List.map_map]
    apply List.map_congr_left
    intro p hp
    obtain ⟨ht, hne⟩ := h p hp
    simp [Function.comp, mkValidatedField, ht]

/-- Witness for C8 at a concrete already-trimmed, non-empty mapping. -/
theorem C8_witness :
    (transformAndValidateFields [("email", "hi")] ["email"]).map Field.name
        = [("email", "hi")].map Prod.fst
    ∧ transformAndValidateFields
        (fieldsToPairs (transformAndValidateFields [("email", "hi")] ["email"]))
        ["email"]
      = transformAndValidateFields [("email", "hi")] ["email"] :=
  ⟨(C8_toFields_order_and_idempotent [("email", "hi")] ["email"]).1,
    (C8_toFields_order_and_idempotent [("email", "hi")] ["email"]).2 (by decide)⟩

/-- Every resolution of the network attempt emits exactly one fetch. -/
theorem submitFormToAPI_trace (data : List (String × String)) (url : String)
    (outcome : FetchOutcome) :
    (submitFormToAPI data url outcome).2 = [Event.fetch data url] := by
  cases outcome <;> rfl

/-- C3 (counterexample): a completed 200 response whose body is
`{message: ""}` yields `message = "Success"`, not the body's `message`
property, because the source uses falsy-`||`, not a presence check. -/
theorem C3_counterexample :
    (submitFormToAPI [] "u"
        (.completed 200 (Json.obj [("message", Json.str "")]))).1.message
      ≠ Json.str "" := by
  intro h
  have h2 : Json.str "Success" = Json.str "" := h
  exact absurd (Json.str.inj h2) (by decide)

/-- C3 (amended): on a completed request with status `s` and parsed body
`b`, the result has statusCode `s`, succeeded iff `s = 200`, payload `b`,
error null, and message equal to `b.message` when `b` has a truthy
`message` property, and `"Success"` otherwise (also when `message` is
present but falsy, e.g. the empty string). -/
theorem C3_completed_response_shape (data : List (String × String))
    (url : String) (s : Int) (b : Json) :
    ((submitFormToAPI data url (.completed s b)).1.status = some s)
    ∧ ((submitFormToAPI data url (.completed s b)).1.success = true ↔ s = 200)
    ∧ ((submitFormToAPI data url (.completed s b)).1.data = b)
    ∧ ((submitFormToAPI data url (.completed s b)).1.error = none)
    ∧ (∀ v, getProp b "message" = some v → truthy v = true
        → (submitFormToAPI data url (.completed s b)).1.message = v)
    ∧ (∀ v, getProp b "message" = some v → truthy v = false
        → (submitFormToAPI data url (.completed s b)).1.message
            = Json.str "Success")
    ∧ (getProp b "message" = none
        → (submitFormToAPI data url (.completed s b)).1.message
            = Json.str "Success") := by
  refine ⟨rfl, ?_, rfl, rfl, ?_, ?_, ?_⟩
  · simp [submitFormToAPI, createResponseObject]
  · intro v hv ht
    simp [submitFormToAPI, createResponseObject, jsOr, hv, ht]
  · intro v hv ht
    simp [submitFormToAPI, createResponseObject, jsOr, hv, ht]
  · intro hv
    simp [submitFormToAPI, createResponseObject, jsOr, hv]

/-- Witness for the amended C3 at a concrete 200 response. -/
theorem C3_amended_witness :
    (submitFormToAPI [("email", "a@b.com")] "https://api.web3forms.com/submit"
        (.completed 200 (Json.obj [("message", Json.str "ok")]))).1.message
      = Json.str "ok" :=
  (C3_completed_response_shape [("email", "a@b.com")]
      "https://api.web3forms.com/submit" 200
      (Json.obj [("message", Json.str "ok")])).2.2.2.2.1
    (Json.str "ok") rfl rfl

/-- C4: every network or parse failure is caught, never re-thrown (the
embedding is a total function), and normalized to statusCode null,
succeeded false, message "Something went wrong!", payload null, and the
caught error. -/
theorem C4_failure_response_shape (data : List (String × String))
    (url : String) (e : String) :
    (submitFormToAPI data url (.fetchFailed e)).1
      = { status := none, success := false
          message := Json.str "Something went wrong!"
          data := Json.null, error := some e }
    ∧ (submitFormToAPI data url (.parseFailed e)).1
      = { status := none, success := false
          message := Json.str "Something went wrong!"
          data := Json.null, error := some e } :=
  ⟨rfl, rfl⟩

/-- C2: when the adapter validates but the outcome says not to proceed,
the workflow shows the loading note and then exactly one error message —
the outcome's error names joined by ", " in order — schedules the hide
with the configured delay, returns false, and performs no fetch. -/
theorem C2_fieldRejected_shows_error_and_stops (fh : FormHandler)
    (outcome : FetchOutcome) (apiUrl : String) (options : Options)
    (hvalid : fh.isValid = true)
    (hreject : (validateSubmission fh.formData
        options.requiredFields).shouldProceed = false) :
    handleFormSubmit fh outcome apiUrl options
      = (false,
          [.showLoading,
            .showError (Json.str ("Missing required fields: "
              ++ String.intercalate ", "
                (validateSubmission fh.formData
                  options.requiredFields).errors)),
            .hideAfter options.resetDelay])
    ∧ ∀ d u, Event.fetch d u ∉ (handleFormSubmit fh outcome apiUrl options).2 := by
  constructor
  · simp [handleFormSubmit, hvalid, hreject]
  · intro d u
    simp [handleFormSubmit, hvalid, hreject]

/-- Witness for C2: a blank required email is reported and no fetch
happens. -/
theorem C2_witness :
    handleFormSubmit ⟨true, [("email", ""), ("message", "hi")]⟩
        (.fetchFailed "boom") "https://api.web3forms.com/submit"
        ⟨["email"], 5000⟩
      = (false,
          [.showLoading,
            .showError (Json.str "Missing required fields: email"),
            .hideAfter 5000]) :=
  (C2_fieldRejected_shows_error_and_stops
    ⟨true, [("email", ""), ("message", "hi")]⟩ (.fetchFailed "boom")
    "https://api.web3forms.com/submit" ⟨["email"], 5000⟩ rfl (by decide)).1

/-- C5: once the workflow reaches the network call, it shows the success
message when the result succeeded and the error message (the result's
message) otherwise, then resets the form and schedules the hide with the
configured delay in both branches, and returns the result's succeeded
flag. -/
theorem C5_resolved_shows_result_resets_and_returns (fh : FormHandler)
    (outcome : FetchOutcome) (apiUrl : String) (options : Options)
    (hvalid : fh.isValid = true)
    (hproceed : (validateSubmission fh.formData
        options.requiredFields).shouldProceed = true) :
    handleFormSubmit fh outcome apiUrl options
      = ((submitFormToAPI fh.formData apiUrl outcome).1.success,
          [Event.showLoading, Event.fetch fh.formData apiUrl,
            if (submitFormToAPI fh.formData apiUrl outcome).1.success
            then Event.showSuccess
              (submitFormToAPI fh.formData apiUrl outcome).1.message
            else Event.showError
              (submitFormToAPI fh.formData apiUrl outcome).1.message,
            Event.reset, Event.hideAfter options.resetDelay]) := by
  simp [handleFormSubmit, hvalid, hproceed, submitFormToAPI_trace]

/-- Witness for C5 at a failed network attempt: the error branch still
resets the form before the hide is scheduled, and false is returned. -/
theorem C5_witness :
    handleFormSubmit ⟨true, [("email", "a@b.com")]⟩ (.fetchFailed "down")
        "https://api.web3forms.com/submit" ⟨["email"], 5000⟩
      = (false,
          [Event.showLoading,
            Event.fetch [("email", "a@b.com")] "https://api.web3forms.com/submit",
            Event.showError (Json.str "Something went wrong!"),
            Event.reset, Event.hideAfter 5000]) :=
  C5_resolved_shows_result_resets_and_returns ⟨true, [("email", "a@b.com")]⟩
    (.fetchFailed "down") "https://api.web3forms.com/submit"
    ⟨["email"], 5000⟩ rfl (by decide)

/-- C6: an adapter-invalid form is rejected immediately: focus is
requested on the first invalid field, the validation-attempted class is
added, false is returned, and the trace holds no fetch and no status
message; the focused node is the head of the invalid-field list. -/
theorem C6_invalid_form_rejected_immediately
    (formData : List (String × String)) (outcome : FetchOutcome)
    (apiUrl : String) (options : Options) :
    handleFormSubmit ⟨false, formData⟩ outcome apiUrl options
      = (false, [Event.focusInvalidField, Event.addValidationClass])
    ∧ ∀ invalidFields : List DomNode,
        focusInvalidFieldTarget invalidFields = invalidFields.head? := by
  refine ⟨rfl, ?_⟩
  intro invalidFields
  cases invalidFields <;> rfl

/-- C7 (counterexample): on a handler whose result element was not found,
`showLoading` appends nothing — the claim's "every call appends exactly
one StatusMessage" fails. -/
theorem C7_counterexample :
    ¬ ((showLoading { resultElement := none, messageHistory := [] } 7).messageHistory
        = ({ resultElement := none, messageHistory := [] } :
            ResponseHandler).messageHistory
          ++ [createMessage "Please wait..." "loading" 7]) := by
  decide

/-- C7 (amended): when the result element is present, each of
`showLoading`, `showSuccess`, `showError` (via `displayMessage`) appends
exactly one message to the end of the history, and the append happens
before the visible-state update (the append step leaves the element
untouched, the visible-state step leaves the history untouched); no
operation removes or rewrites previously appended entries — the old
history is always a prefix of the new one, and the fired hide keeps it
unchanged. -/
theorem C7_history_append_only (s : ResponseHandler) (m : String)
    (st : String) (now : Nat) :
    (s.resultElement.isSome = true →
      displayMessage s m st now
        = updateVisibleState (appendToHistory s (createMessage m st now)) m st
      ∧ (displayMessage s m st now).messageHistory
          = s.messageHistory ++ [createMessage m st now]
      ∧ (showLoading s now).messageHistory
          = s.messageHistory ++ [createMessage "Please wait..." "loading" now]
      ∧ (showSuccess s m now).messageHistory
          = s.messageHistory ++ [createMessage m "success" now]
      ∧ (showError s m now).messageHistory
          = s.messageHistory ++ [createMessage m "error" now])
    ∧ (appendToHistory s (createMessage m st now)).resultElement
        = s.resultElement
    ∧ (updateVisibleState s m st).messageHistory = s.messageHistory
    ∧ (∃ t, (displayMessage s m st now).messageHistory
        = s.messageHistory ++ t)
    ∧ (hideAfterFire s).messageHistory = s.messageHistory := by
  obtain ⟨el, hist⟩ := s
  cases el with
  | none =>
      refine ⟨fun h => by simp [Option.isSome] at h, rfl, rfl,
        ⟨[], by simp [displayMessage]⟩, rfl⟩
  | some e =>
      refine ⟨fun _ => ⟨rfl, rfl, rfl, rfl, rfl⟩, rfl, rfl,
        ⟨[createMessage m st now], rfl⟩, rfl⟩

/-- Witness for the amended C7 on a present element. -/
theorem C7_witness :
    (showError
        { resultElement := some { innerHTML := "", display := "none", classList := [] }
          messageHistory := [] } "oops" 3).messageHistory
      = [createMessage "oops" "error" 3] :=
  ((C7_history_append_only
      { resultElement := some { innerHTML := "", display := "none", classList := [] }
        messageHistory := [] } "oops" "error" 3).1 rfl).2.2.2.2

/-- C10: when the configured element id was not found at construction,
`displayMessage` — and with it `showLoading`, `showSuccess`, `showError`
— returns the handler state unchanged: nothing is appended to the history
and no visible state changes; all status output is silently dropped. -/
theorem C10_null_element_drops_all_output (s : ResponseHandler)
    (m st : String) (now : Nat) (h : s.resultElement = none) :
    displayMessage s m st now = s
    ∧ showLoading s now = s
    ∧ showSuccess s m now = s
    ∧ showError s m now = s := by
  refine ⟨?_, ?_, ?_, ?_⟩ <;>
    simp [displayMessage, showLoading, showSuccess, showError, h]

/-- Witness for C10 at a concrete element-less handler. -/
theorem C10_witness :
    showError { resultElement := none, messageHistory := [] } "x" 1
      = { resultElement := none, messageHistory := [] } :=
  (C10_null_element_drops_all_output
    { resultElement := none, messageHistory := [] } "x" "error" 1 rfl).2.2.2

end FormulRio
